import Mathlib

/-!
Verification of the carousel slide generator (netlify/functions/carousel.js).

The file shallowly embeds the pure logic of the source: the XML escaper,
the text wrapper, the redirect-following image downloader (with the network
abstracted as a response environment), the node-cache-backed rate limiter,
the per-slide generation orchestration, and the HTTP handler's
validation / response-size policy.  External collaborators (the network,
the sharp raster library, JSON serialization, Google Drive) are modelled
as explicit environment parameters; JS numbers are modelled as exact
rationals (ℚ) or integers, and JS strings as Lean strings.
-/

namespace Carousel

/-! ## escapeXml (carousel.js lines 298-309)

`escapeXml` replaces each of the five reserved characters by its entity and
leaves every other character unchanged (the regex `/[<>&'"]/g` with the
switch).  The JS falsy-input guard (`if (!unsafe) return ''`) maps the empty
string to itself, which the character-wise model already does; non-string
inputs are outside the typed model. -/

def apos : Char := Char.ofNat 39

def escapeXmlChar (c : Char) : List Char :=
  if c = '<' then "&lt;".data
  else if c = '>' then "&gt;".data
  else if c = '&' then "&amp;".data
  else if c = apos then "&apos;".data
  else if c = '"' then "&quot;".data
  else [c]

def escapeXml (raw : String) : String :=
  String.mk (raw.data.map escapeXmlChar).flatten

/-- Modelled from the spec: the spec's "decoding (unescaping)" of escaped
text is not code of this repository; this is the standard decoder for the
five XML entities the escaper produces, scanning left to right. -/
def unescapeChars : List Char → List Char
  | [] => []
  | c :: rest =>
    if c = '&' then
      match rest with
      | 'l' :: 't' :: ';' :: r => '<' :: unescapeChars r
      | 'g' :: 't' :: ';' :: r => '>' :: unescapeChars r
      | 'a' :: 'm' :: 'p' :: ';' :: r => '&' :: unescapeChars r
      | 'a' :: 'p' :: 'o' :: 's' :: ';' :: r => apos :: unescapeChars r
      | 'q' :: 'u' :: 'o' :: 't' :: ';' :: r => '"' :: unescapeChars r
      | r => c :: unescapeChars r
    else c :: unescapeChars rest

def unescapeXml (s : String) : String :=
  String.mk (unescapeChars s.data)

/-! ## wrapTextIntoLines (carousel.js lines 105-147)

JS numbers are modelled as exact rationals; the float literals 0.65 / 0.55 /
0.50 are the rationals 13/20, 11/20, 1/2.  `text.split(' ')` splits on every
single space, keeping empty fragments between consecutive spaces
(`jsSplitOnSpace`); `text.trim()` strips leading/trailing whitespace
(`jsTrim`, with `Char.isWhitespace` standing for JS's whitespace class).
JS string truthiness of `currentLine` is the test `≠ ""`. -/

def splitSpaceAux : List Char → List Char → List String
  | [], acc => [String.mk acc.reverse]
  | c :: cs, acc =>
    if c = ' ' then String.mk acc.reverse :: splitSpaceAux cs []
    else splitSpaceAux cs (c :: acc)

def jsSplitOnSpace (text : String) : List String :=
  splitSpaceAux text.data []

def jsTrim (text : String) : String :=
  String.mk (((text.data.dropWhile Char.isWhitespace).reverse.dropWhile
    Char.isWhitespace).reverse)

def charWidthMultiplier (fontFamily : String) : ℚ :=
  if fontFamily = "Impact" then 13/20
  else if fontFamily = "Arial Black" then 13/20
  else if fontFamily = "Bebas Neue" then 11/20
  else if fontFamily = "Arial" then 11/20
  else if fontFamily = "Helvetica" then 11/20
  else if fontFamily = "Futura" then 1/2
  else if fontFamily = "Georgia" then 11/20
  else if fontFamily = "Times" then 1/2
  else 11/20

/-- Line 131: `currentLine ? currentLine + ' ' + word : word`. -/
def testLineOf (currentLine word : String) : String :=
  if currentLine ≠ "" then currentLine ++ " " ++ word else word

/-- The `for (const word of words)` loop of `wrapTextIntoLines` together with
the post-loop `if (currentLine) lines.push(currentLine)`. -/
def wrapLoop (maxWidth fontSize multiplier : ℚ) :
    List String → List String → String → List String
  | [], lines, currentLine =>
    if currentLine ≠ "" then lines ++ [currentLine] else lines
  | word :: words, lines, currentLine =>
    if ((testLineOf currentLine word).length : ℚ) * fontSize * multiplier > maxWidth
        ∧ currentLine ≠ "" then
      wrapLoop maxWidth fontSize multiplier words (lines ++ [currentLine]) word
    else
      wrapLoop maxWidth fontSize multiplier words lines (testLineOf currentLine word)

/-- Line 146: `lines.length > 0 ? lines : [text]`. -/
def wrapFallback (text : String) (lines : List String) : List String :=
  if 0 < lines.length then lines else [text]

def wrapTextIntoLines (text : String) (maxWidth fontSize : ℚ) (fontFamily : String) :
    List String :=
  if (jsTrim text).length = 0 then []
  else
    wrapFallback text
      (wrapLoop maxWidth fontSize (charWidthMultiplier fontFamily) (jsSplitOnSpace text) [] "")

/-! ## downloadImage (carousel.js lines 15-99)

The network is abstracted as an environment `net : String → HttpResp`
giving, for each URL, the response the server would send; `resolve` models
`new URL(location, url).href` (the URL library), `none` when the
constructor throws.  Timeouts and transport errors are asynchronous events
outside the deterministic model; the claims under verification do not
involve them.  JS truthiness of a header string (absent or `""` is falsy)
is `strTruthy`. -/

structure HttpResp where
  status : Nat
  location : Option String
  contentType : Option String
  chunks : List (List Nat)

def strTruthy : Option String → Bool
  | some s => s ≠ ""
  | none => false

/-- JS `s.startsWith(p)` (used for the `image/` Content-Type check). -/
def strStartsWith (s p : String) : Bool :=
  p.data.isPrefixOf s.data

inductive DownloadError where
  | tooManyRedirects (maxRedirects : Nat)
  | invalidRedirectUrl (location : String)
  | httpError (status : Nat)
  | invalidContentType (contentType : String)
  | emptyResponse
deriving DecidableEq

/-- Lines 73-81: collect the data chunks; zero chunks is the
`Empty response from image server` rejection, otherwise `Buffer.concat`. -/
def readBody (response : HttpResp) : Except DownloadError (List Nat) :=
  if response.chunks.isEmpty then .error .emptyResponse
  else .ok response.chunks.flatten

def downloadImage (net : String → HttpResp) (resolve : String → String → Option String)
    (url : String) (maxRedirects : Nat) (redirectCount : Nat) :
    Except DownloadError (List Nat) :=
  if _h : redirectCount > maxRedirects then
    .error (.tooManyRedirects maxRedirects)
  else
    let response := net url
    if 300 ≤ response.status ∧ response.status < 400 ∧ strTruthy response.location = true then
      match resolve (response.location.getD "") url with
      | some redirectUrl =>
        downloadImage net resolve redirectUrl maxRedirects (redirectCount + 1)
      | none => .error (.invalidRedirectUrl (response.location.getD ""))
    else if response.status ≠ 200 then
      .error (.httpError response.status)
    else if strTruthy response.contentType = true
        ∧ strStartsWith (response.contentType.getD "") "image/" = false then
      .error (.invalidContentType (response.contentType.getD ""))
    else
      readBody response
termination_by maxRedirects + 1 - redirectCount
decreasing_by omega

/-- A redirect chain along the listed URLs: every URL but the last answers
with a 3xx response whose `Location`, resolved against it, is the next URL. -/
def redirectChainB (net : String → HttpResp) (resolve : String → String → Option String) :
    List String → Bool
  | u :: v :: rest =>
    (300 ≤ (net u).status && (net u).status < 400 && strTruthy (net u).location
      && (resolve ((net u).location.getD "") u == some v))
    && redirectChainB net resolve (v :: rest)
  | _ => true

/-! ## Rate limiting (carousel.js lines 7-9 and 459-472)

`new NodeCache({ stdTTL: 60 })`: per node-cache's documented semantics,
`get` returns the stored value while the entry is unexpired and `set`
stores a value whose expiry is 60 seconds from the time of that `set`
(every write refreshes the TTL).  Time is milliseconds since epoch. -/

structure NCEntry where
  value : Nat
  expiresAt : Nat

def NCache : Type := String → Option NCEntry

def emptyNC : NCache := fun _ => none

def ncGet (cache : NCache) (key : String) (now : Nat) : Option Nat :=
  match cache key with
  | some e => if now ≤ e.expiresAt then some e.value else none
  | none => none

def ncSet (cache : NCache) (key : String) (v : Nat) (now : Nat) : NCache :=
  fun k => if k = key then some ⟨v, now + 60000⟩ else cache k

def RATE_LIMIT : Nat := 10

inductive RLDecision where
  | rejected
  | admitted (newCache : NCache)

/-- Lines 463-472: read the client's counter (0 when absent/expired),
reject at the threshold, otherwise admit and write back the incremented
counter (which refreshes the entry's TTL). -/
def rateLimitStep (cache : NCache) (clientIP : String) (now : Nat) : RLDecision :=
  let requestCount := (ncGet cache clientIP now).getD 0
  if requestCount ≥ RATE_LIMIT then .rejected
  else .admitted (ncSet cache clientIP (requestCount + 1) now)

/-- A sequence of requests from one client at the given times, recording
for each whether it was admitted, threading the cache. -/
def processRequests (cache : NCache) (clientIP : String) : List Nat → List Bool × NCache
  | [] => ([], cache)
  | t :: ts =>
    match rateLimitStep cache clientIP t with
    | .rejected =>
      let rest := processRequests cache clientIP ts
      (false :: rest.1, rest.2)
    | .admitted cache1 =>
      let rest := processRequests cache1 clientIP ts
      (true :: rest.1, rest.2)

/-! ## Slide generation (carousel.js lines 314-383, 521-533)

`generateSlide` wraps a try/catch around the per-slide pipeline (download
via `downloadImage`, sharp resize, optional `createTextSVG` composite, PNG
encode, base64).  The pipeline body performs external asynchronous I/O
(network, the sharp raster library), so its outcome is abstracted as an
environment function `attempt background slide width height`, returning
the base64 payload on success or the thrown error's message on failure.
The catch clause and the deterministic filename are modelled exactly. -/

structure SlideSpec where
  title : Option String := none
  subtitle : Option String := none
deriving DecidableEq, Inhabited

abbrev Url := String

inductive SlideResult where
  | success (base64 : String) (filename : String)
  | failure (error : String) (filename : String)
deriving DecidableEq, Inhabited

def SlideResult.filename : SlideResult → String
  | .success _ f => f
  | .failure _ f => f

def SlideResult.isSuccess : SlideResult → Bool
  | .success _ _ => true
  | .failure _ _ => false

def SlideResult.base64D : SlideResult → String
  | .success b _ => b
  | .failure _ _ => ""

abbrev Attempt := Url → SlideSpec → Int → Int → Except String String

def slideFilename (index : Nat) : String :=
  "carousel-slide-" ++ toString (index + 1) ++ ".png"

def generateSlide (attempt : Attempt) (width height : Int)
    (background : Url) (slide : SlideSpec) (index : Nat) : SlideResult :=
  match attempt background slide width height with
  | .ok base64 => .success ("data:image/png;base64," ++ base64) (slideFilename index)
  | .error e => .failure e (slideFilename index)

/-- JS `array.map((x, index) => f index x)` starting from index `i`. -/
def mapWithIndex (f : Nat → α → β) : Nat → List α → List β
  | _, [] => []
  | i, a :: as => f i a :: mapWithIndex f (i + 1) as

/-- Lines 523-533: `backgrounds.map((background, index) =>
generateSlide({background, slide: slides[index], width, height, index}))`
joined by `Promise.all` (which preserves input order). -/
def runSlides (attempt : Attempt) (width height : Int)
    (backgrounds : List Url) (slides : List SlideSpec) : List SlideResult :=
  mapWithIndex
    (fun index background =>
      generateSlide attempt width height background (slides.getD index default) index)
    0 backgrounds

/-! ## Handler (carousel.js lines 435-661)

The JSON body parser is external: `Event.body` is the parse outcome
(`.error` when `JSON.parse` throws, which the catch-all turns into a 500).
Destructuring defaults are the `getD`s.  `HandlerEnv.serialize` abstracts
`JSON.stringify` + UTF-8 encoding (`Buffer.byteLength` is the length of
the byte list); `upload` abstracts the Google Drive client; `genTimeMs`
the wall clock.  `HandlerOutput.rendered` instruments which slide indices
had rendering work scheduled (the `backgrounds.map` dispatch). -/

structure Stats where
  totalSlides : Nat
  successful : Nat
  failed : Nat
  generationTimeMs : Nat
  width : Int
  height : Int
deriving DecidableEq

inductive UploadResult where
  | ok (fileId webViewLink webContentLink : String)
  | err (error : String)
deriving DecidableEq, Inhabited

def UploadResult.isOk : UploadResult → Bool
  | .ok _ _ _ => true
  | .err _ => false

/-- Line 563: `driveUrls[index]?.webContentLink || driveUrls[index]?.webViewLink`. -/
def UploadResult.driveLink : UploadResult → String
  | .ok _ webViewLink webContentLink =>
    if webContentLink ≠ "" then webContentLink else webViewLink
  | .err _ => ""

inductive ResponseImage where
  | full (r : SlideResult)
  | urlOnly (filename driveUrl : String)
deriving DecidableEq

structure SuccessResponse where
  images : List ResponseImage
  failed : Option (List SlideResult)
  driveUrls : Option (List UploadResult)
  stats : Stats
deriving DecidableEq

inductive ResponseBody where
  | empty
  | errorMsg (error : String)
  | serialized (bytes : List Nat)
  | oversize (sizeBytes : Nat) (suggestion : String) (stats : Stats)
  | internal (error : String)
deriving DecidableEq

structure HttpResponse where
  statusCode : Nat
  body : ResponseBody
deriving DecidableEq

structure RequestBody where
  backgrounds : Option (List Url) := none
  slides : Option (List SlideSpec) := none
  width : Option Int := none
  height : Option Int := none
  uploadToDrive : Bool := false
  driveToken : Option String := none
  driveFolderId : Option String := none
  returnUrls : Bool := false

structure Event where
  httpMethod : String
  xForwardedFor : Option String := none
  clientIp : Option String := none
  body : Except String RequestBody

structure HandlerEnv where
  attempt : Attempt
  upload : String → String → String → Option String → UploadResult
  serialize : SuccessResponse → List Nat
  genTimeMs : Nat

structure HandlerOutput where
  response : HttpResponse
  cache : NCache
  rendered : List Nat

/-- JS `a || b` on an optional header string. -/
def jsOr (o : Option String) (d : String) : String :=
  match o with
  | some s => if s = "" then d else s
  | none => d

/-- Lines 459-461: `event.headers['x-forwarded-for'] ||
event.headers['client-ip'] || 'unknown'`. -/
def clientIPOf (event : Event) : String :=
  jsOr event.xForwardedFor (jsOr event.clientIp "unknown")

def MAX_RESPONSE_BYTES : Nat := 6000000

def suggestionWithDrive : String :=
  "Set \"returnUrls\": true in your request to return Drive URLs instead of base64 data, or reduce the number of slides."

def suggestionNoDrive : String :=
  "Reduce the number of slides, use smaller dimensions, or enable Google Drive upload with \"returnUrls\": true to get URLs instead of base64 data."

/-- Lines 585-644: the response-size ceiling.  The 413 bodies carry the
measured size (the formatted MB message is presentation), the actionable
suggestion, and the stats; under the ceiling the serialized response is
returned whole with status 200. -/
def finalizeResponse (responseString : List Nat) (hasDriveUrls : Bool) (stats : Stats) :
    HttpResponse :=
  let responseSizeBytes := responseString.length
  if responseSizeBytes > MAX_RESPONSE_BYTES then
    if hasDriveUrls then
      ⟨413, .oversize responseSizeBytes suggestionWithDrive stats⟩
    else
      ⟨413, .oversize responseSizeBytes suggestionNoDrive stats⟩
  else
    ⟨200, .serialized responseString⟩

/-- Lines 536-552: partition and the optional Drive upload fan-out. -/
def batchDriveUrls (env : HandlerEnv) (body : RequestBody)
    (successfulSlides : List SlideResult) : List UploadResult :=
  if body.uploadToDrive ∧ body.driveToken.getD "" ≠ "" ∧ 0 < successfulSlides.length then
    successfulSlides.map
      (fun s => env.upload s.base64D s.filename (body.driveToken.getD "") body.driveFolderId)
  else []

/-- Lines 554-583: the response images (URL-only mode when requested and
every upload succeeded, full base64 otherwise) and the response object. -/
def assembleResponse (env : HandlerEnv) (body : RequestBody) : SuccessResponse :=
  let backgrounds := body.backgrounds.getD []
  let slides := body.slides.getD []
  let width := body.width.getD 1080
  let height := body.height.getD 1080
  let results := runSlides env.attempt width height backgrounds slides
  let successfulSlides := results.filter SlideResult.isSuccess
  let failedSlides := results.filter (fun r => !r.isSuccess)
  let driveUrls := batchDriveUrls env body successfulSlides
  let responseImages :=
    if body.returnUrls ∧ 0 < driveUrls.length ∧ driveUrls.all UploadResult.isOk then
      mapWithIndex
        (fun index s =>
          ResponseImage.urlOnly s.filename ((driveUrls.getD index default).driveLink))
        0 successfulSlides
    else
      successfulSlides.map ResponseImage.full
  { images := responseImages
    failed := if 0 < failedSlides.length then some failedSlides else none
    driveUrls := if 0 < driveUrls.length then some driveUrls else none
    stats := ⟨backgrounds.length, successfulSlides.length, failedSlides.length,
              env.genTimeMs, width, height⟩ }

/-- The success path's tail: serialize the assembled response and apply the
size ceiling (lines 585-644). -/
def processBatch (env : HandlerEnv) (body : RequestBody) : HttpResponse :=
  finalizeResponse (env.serialize (assembleResponse env body))
    (decide (0 < (batchDriveUrls env body
      ((runSlides env.attempt (body.width.getD 1080) (body.height.getD 1080)
        (body.backgrounds.getD []) (body.slides.getD [])).filter SlideResult.isSuccess)).length))
    (assembleResponse env body).stats

/-- Lines 488-533: the four validation rejections in source order, then the
batch dispatch (the `rendered` field records the indices the
`backgrounds.map` scheduled). -/
def validateAndRun (env : HandlerEnv) (cache1 : NCache) (body : RequestBody) :
    HandlerOutput :=
  if (body.backgrounds.getD []).length = 0 then
    ⟨⟨400, .errorMsg "backgrounds array is required and must not be empty"⟩, cache1, []⟩
  else if (body.slides.getD []).length = 0 then
    ⟨⟨400, .errorMsg "slides array is required and must not be empty"⟩, cache1, []⟩
  else if (body.backgrounds.getD []).length ≠ (body.slides.getD []).length then
    ⟨⟨400, .errorMsg "backgrounds and slides arrays must have the same length"⟩, cache1, []⟩
  else if body.width.getD 1080 < 200 ∨ body.width.getD 1080 > 4000
      ∨ body.height.getD 1080 < 200 ∨ body.height.getD 1080 > 4000 then
    ⟨⟨400, .errorMsg "Width and height must be between 200 and 4000 pixels"⟩, cache1, []⟩
  else
    ⟨processBatch env body, cache1, List.range (body.backgrounds.getD []).length⟩

/-- Line 475 onwards: `JSON.parse` throwing lands in the catch-all 500. -/
def handlerBody (env : HandlerEnv) (cache1 : NCache) (parsed : Except String RequestBody) :
    HandlerOutput :=
  match parsed with
  | .error e => ⟨⟨500, .internal e⟩, cache1, []⟩
  | .ok body => validateAndRun env cache1 body

def handler (env : HandlerEnv) (cache : NCache) (now : Nat) (event : Event) :
    HandlerOutput :=
  if event.httpMethod = "OPTIONS" then ⟨⟨200, .empty⟩, cache, []⟩
  else if event.httpMethod ≠ "POST" then
    ⟨⟨405, .errorMsg "Method not allowed. Use POST."⟩, cache, []⟩
  else if (ncGet cache (clientIPOf event) now).getD 0 ≥ RATE_LIMIT then
    ⟨⟨429, .errorMsg "Rate limit exceeded. Maximum 10 requests per minute."⟩, cache, []⟩
  else
    handlerBody env
      (ncSet cache (clientIPOf event) ((ncGet cache (clientIPOf event) now).getD 0 + 1) now)
      event.body

/-! ## Helper lemmas for the text wrapper -/

theorem charWidthMultiplier_pos (fontFamily : String) : 0 < charWidthMultiplier fontFamily := by
  unfold charWidthMultiplier
  repeat' split
  all_goals norm_num

theorem wrapLoop_mem_mono (maxW fs mult : ℚ) :
    ∀ (ws lines : List String) (cur x : String),
      x ∈ lines → x ∈ wrapLoop maxW fs mult ws lines cur := by
  intro ws
  induction ws with
  | nil =>
    intro lines cur x hx
    unfold wrapLoop
    split
    · exact List.mem_append_left _ hx
    · exact hx
  | cons w ws ih =>
    intro lines cur x hx
    unfold wrapLoop
    split
    · exact ih _ _ _ (List.mem_append_left _ hx)
    · exact ih _ _ _ hx

theorem width_mono (fs mult : ℚ) (h0 : 0 ≤ fs * mult) (a b : Nat) (hab : a ≤ b)
    (maxW : ℚ) (ha : (a : ℚ) * fs * mult > maxW) : (b : ℚ) * fs * mult > maxW := by
  have hle : (a : ℚ) ≤ (b : ℚ) := by exact_mod_cast hab
  calc maxW < (a : ℚ) * fs * mult := ha
    _ ≤ (b : ℚ) * fs * mult := by
        rw [mul_assoc, mul_assoc]
        exact mul_le_mul_of_nonneg_right hle h0

theorem wrapLoop_cur_mem (maxW fs mult : ℚ) (h0 : 0 ≤ fs * mult) :
    ∀ (ws lines : List String) (cur : String), cur ≠ "" →
      (cur.length : ℚ) * fs * mult > maxW →
      cur ∈ wrapLoop maxW fs mult ws lines cur := by
  intro ws
  induction ws with
  | nil =>
    intro lines cur hc hw
    unfold wrapLoop
    rw [if_pos hc]
    exact List.mem_append_right _ (List.mem_singleton_self cur)
  | cons w ws ih =>
    intro lines cur hc hw
    have hgrow : ((testLineOf cur w).length : ℚ) * fs * mult > maxW := by
      refine width_mono fs mult h0 cur.length _ ?_ maxW hw
      rw [testLineOf, if_pos hc]
      simp only [String.length_append]
      omega
    unfold wrapLoop
    rw [if_pos ⟨hgrow, hc⟩]
    exact wrapLoop_mem_mono maxW fs mult _ _ _ _
      (List.mem_append_right _ (List.mem_singleton_self cur))

theorem wrapLoop_word_mem (maxW fs mult : ℚ) (h0 : 0 ≤ fs * mult) :
    ∀ (ws lines : List String) (cur w : String), w ∈ ws → w ≠ "" →
      (w.length : ℚ) * fs * mult > maxW →
      w ∈ wrapLoop maxW fs mult ws lines cur := by
  intro ws
  induction ws with
  | nil =>
    intro lines cur w hmem
    exact absurd hmem (List.not_mem_nil w)
  | cons v ws ih =>
    intro lines cur w hmem hne hw
    rcases List.mem_cons.mp hmem with rfl | hmem'
    · by_cases hc : cur = ""
      · subst hc
        unfold wrapLoop
        rw [if_neg (by simp)]
        rw [testLineOf, if_neg (by simp)]
        exact wrapLoop_cur_mem maxW fs mult h0 ws lines w hne hw
      · have hgrow : ((testLineOf cur w).length : ℚ) * fs * mult > maxW := by
          refine width_mono fs mult h0 w.length _ ?_ maxW hw
          rw [testLineOf, if_pos hc]
          simp only [String.length_append]
          omega
        unfold wrapLoop
        rw [if_pos ⟨hgrow, hc⟩]
        exact wrapLoop_cur_mem maxW fs mult h0 ws (lines ++ [cur]) w hne hw
    · unfold wrapLoop
      split
      · exact ih _ _ _ hmem' hne hw
      · exact ih _ _ _ hmem' hne hw

/-! ## String helper lemmas -/

theorem string_length_zero {s : String} (h : s.length = 0) : s = "" := by
  cases s with
  | mk data =>
    cases data with
    | nil => rfl
    | cons c cs => simp [String.length] at h

theorem wrapLoop_nil (maxW fs mult : ℚ) (lines : List String) (cur : String) :
    wrapLoop maxW fs mult [] lines cur
      = if cur ≠ "" then lines ++ [cur] else lines := rfl

theorem wrapLoop_cons (maxW fs mult : ℚ) (w : String) (ws lines : List String)
    (cur : String) :
    wrapLoop maxW fs mult (w :: ws) lines cur
      = if ((testLineOf cur w).length : ℚ) * fs * mult > maxW ∧ cur ≠ "" then
          wrapLoop maxW fs mult ws (lines ++ [cur]) w
        else
          wrapLoop maxW fs mult ws lines (testLineOf cur w) := rfl

theorem charWidthMultiplier_futura : charWidthMultiplier "Futura" = 1/2 := by
  unfold charWidthMultiplier
  rw [if_neg (by decide), if_neg (by decide), if_neg (by decide), if_neg (by decide),
      if_neg (by decide), if_pos rfl]

theorem charWidthMultiplier_arial : charWidthMultiplier "Arial" = 11/20 := by
  unfold charWidthMultiplier
  rw [if_neg (by decide), if_neg (by decide), if_neg (by decide), if_pos rfl]

/-! ## Claim C6 -/

/-- C6: the text wrapper returns the empty sequence for empty input and for
whitespace-only input (both trim to the empty string), and for every text
that is non-empty after trimming it never returns an empty sequence (the
final `lines.length > 0 ? lines : [text]` fallback guarantees a line). -/
theorem wrap_empty_and_nonempty (maxWidth fontSize : ℚ) (fontFamily text : String) :
    wrapTextIntoLines "" maxWidth fontSize fontFamily = []
    ∧ (jsTrim text = "" → wrapTextIntoLines text maxWidth fontSize fontFamily = [])
    ∧ (jsTrim text ≠ "" → wrapTextIntoLines text maxWidth fontSize fontFamily ≠ []) := by
  refine ⟨?_, ?_, ?_⟩
  · unfold wrapTextIntoLines
    rw [if_pos (by decide)]
  · intro h
    unfold wrapTextIntoLines
    rw [if_pos (by rw [h]; decide)]
  · intro h
    unfold wrapTextIntoLines
    rw [if_neg (fun hlen => h (string_length_zero hlen))]
    unfold wrapFallback
    split
    · next hpos =>
      intro hnil
      rw [hnil] at hpos
      exact absurd hpos (by simp)
    · exact (by simp : ([text] : List String) ≠ [])

/-! ## Claim C7 -/

/-- C7 counterexample: the claim quantifies over every font size, but for a
negative font size every estimated width is negative and the greedy
overflow check inverts.  With `fontSize = -2`, `maxWidth = -10`, family
Futura (multiplier 1/2), the word `bbbbbbbbb` has estimated width
`9 * (-2) * (1/2) = -9 > -10`, i.e. it exceeds the budget, yet the wrapper
keeps it on one line together with the word `a`: the overflowing word does
not occupy a line of its own. -/
theorem wrap_long_word_cex :
    (((("bbbbbbbbb" : String).length : ℚ) * (-2) * charWidthMultiplier "Futura") > -10)
    ∧ "bbbbbbbbb" ∈ jsSplitOnSpace "a bbbbbbbbb"
    ∧ wrapTextIntoLines "a bbbbbbbbb" (-10) (-2) "Futura" = ["a bbbbbbbbb"]
    ∧ "bbbbbbbbb" ∉ wrapTextIntoLines "a bbbbbbbbb" (-10) (-2) "Futura" := by
  have hm := charWidthMultiplier_futura
  have hsplit : jsSplitOnSpace "a bbbbbbbbb" = ["a", "bbbbbbbbb"] := by decide
  have hstep1 : wrapLoop (-10) (-2) (1/2) ["a", "bbbbbbbbb"] [] ""
      = wrapLoop (-10) (-2) (1/2) ["bbbbbbbbb"] [] "a" := by
    rw [wrapLoop_cons, if_neg (fun hand => hand.2 rfl),
        (by decide : testLineOf "" "a" = "a")]
  have hstep2 : wrapLoop (-10) (-2) (1/2) ["bbbbbbbbb"] [] "a"
      = wrapLoop (-10) (-2) (1/2) [] [] "a bbbbbbbbb" := by
    rw [wrapLoop_cons, (by decide : testLineOf "a" "bbbbbbbbb" = "a bbbbbbbbb")]
    rw [if_neg ?_]
    intro hand
    have h1 := hand.1
    rw [(by decide : ("a bbbbbbbbb" : String).length = 11)] at h1
    norm_num at h1
  have hstep3 : wrapLoop (-10) (-2) (1/2) [] [] "a bbbbbbbbb" = ["a bbbbbbbbb"] := by
    rw [wrapLoop_nil, if_pos (by decide)]
    rfl
  have heval : wrapTextIntoLines "a bbbbbbbbb" (-10) (-2) "Futura" = ["a bbbbbbbbb"] := by
    unfold wrapTextIntoLines
    rw [if_neg (by decide), hm, hsplit, hstep1, hstep2, hstep3]
    decide
  refine ⟨?_, ?_, heval, ?_⟩
  · rw [hm, (by decide : ("bbbbbbbbb" : String).length = 9)]
    norm_num
  · rw [hsplit]
    decide
  · rw [heval]
    decide

/-- C7 as amended: for a NONNEGATIVE font size (the claim's universal
quantification over font sizes fails for negative ones, see the
counterexample), any non-empty word of a non-whitespace-only text whose
estimated width `length * fontSize * multiplier` exceeds `maxWidth`
appears in the wrapper's output as a whole line equal to the word itself:
the word is never split, and no other word shares its line. -/
theorem wrap_long_word_own_line (text : String) (maxWidth fontSize : ℚ)
    (fontFamily w : String) (hfs : 0 ≤ fontSize) (ht : jsTrim text ≠ "")
    (hw : w ∈ jsSplitOnSpace text) (hne : w ≠ "")
    (hover : (w.length : ℚ) * fontSize * charWidthMultiplier fontFamily > maxWidth) :
    w ∈ wrapTextIntoLines text maxWidth fontSize fontFamily := by
  have h0 : 0 ≤ fontSize * charWidthMultiplier fontFamily :=
    mul_nonneg hfs (le_of_lt (charWidthMultiplier_pos fontFamily))
  have hmem := wrapLoop_word_mem maxWidth fontSize (charWidthMultiplier fontFamily) h0
    (jsSplitOnSpace text) [] "" w hw hne hover
  unfold wrapTextIntoLines
  rw [if_neg (fun hlen => ht (string_length_zero hlen))]
  unfold wrapFallback
  rw [if_pos (List.length_pos_of_mem hmem)]
  exact hmem

/-- C7 witness: the word `supercalifragilistic` (20 characters, estimated
width 20 * 20 * (11/20) = 220 > 100) occupies its own line in the output. -/
theorem wrap_long_word_own_line_witness :
    "supercalifragilistic" ∈ wrapTextIntoLines "hi supercalifragilistic" 100 20 "Arial" := by
  refine wrap_long_word_own_line "hi supercalifragilistic" 100 20 "Arial"
    "supercalifragilistic" (by norm_num) (by decide) (by decide) (by decide) ?_
  rw [charWidthMultiplier_arial, (by decide : ("supercalifragilistic" : String).length = 20)]
  norm_num

/-! ## Claim C8 -/

def reservedChars : List Char := ['<', '>', '&', apos, '"']

/-- C8 counterexample: escaping is not idempotent-safe on already-escaped
output.  `escape("&") = "&amp;"`, and escaping that output again yields the
double-escaping artifact `"&amp;amp;"` (whose single decoding is `"&amp;"`,
not the original `"&"`), so applying escape to escape(x) does introduce a
double-escaping artifact for the reserved character `&`. -/
theorem escape_double_escape_cex :
    escapeXml "&" = "&amp;"
    ∧ escapeXml (escapeXml "&") = "&amp;amp;"
    ∧ escapeXml (escapeXml "&") ≠ escapeXml "&"
    ∧ unescapeXml (escapeXml (escapeXml "&")) = "&amp;"
    ∧ unescapeXml (escapeXml (escapeXml "&")) ≠ "&" := by
  refine ⟨by decide, by decide, by decide, by decide, by decide⟩

theorem escapeXmlChar_of_not_reserved {c : Char} (h : c ∉ reservedChars) :
    escapeXmlChar c = [c] := by
  unfold escapeXmlChar
  rw [if_neg (fun he => h (by rw [he]; decide)),
      if_neg (fun he => h (by rw [he]; decide)),
      if_neg (fun he => h (by rw [he]; decide)),
      if_neg (fun he => h (by rw [he]; decide)),
      if_neg (fun he => h (by rw [he]; decide))]

theorem escapeXml_id_of_no_reserved {l : List Char} (h : ∀ c ∈ l, c ∉ reservedChars) :
    (l.map escapeXmlChar).flatten = l := by
  induction l with
  | nil => rfl
  | cons c cs ih =>
    simp only [List.map_cons, List.flatten_cons]
    rw [escapeXmlChar_of_not_reserved (h c (List.mem_cons_self c cs)),
        ih (fun x hx => h x (List.mem_cons_of_mem c hx))]
    rfl

theorem unescapeChars_no_amp {l : List Char} (h : '&' ∉ l) : unescapeChars l = l := by
  induction l with
  | nil => rfl
  | cons c cs ih =>
    have hc : c ≠ '&' := fun he => h (he ▸ List.mem_cons_self c cs)
    unfold unescapeChars
    rw [if_neg hc, ih (fun hx => h (List.mem_cons_of_mem c hx))]

/-- C8 as amended: the escaper rewrites exactly the five reserved markup
characters (each to its entity, every other character passes through
unchanged), and for every input containing none of the five reserved
characters, escaping is the identity and decoding the escaped text recovers
the original exactly.  It is NOT idempotent-safe on already-escaped text:
re-escaping escapes the `&` of entities (see the counterexample). -/
theorem escape_exactly_five_and_roundtrip (x : String)
    (h : ∀ c ∈ x.data, c ∉ reservedChars) :
    escapeXml x = x
    ∧ unescapeXml (escapeXml x) = x
    ∧ (∀ c, c ∉ reservedChars → escapeXmlChar c = [c])
    ∧ escapeXml "<" = "&lt;" ∧ escapeXml ">" = "&gt;" ∧ escapeXml "&" = "&amp;"
    ∧ escapeXml (String.mk [apos]) = "&apos;" ∧ escapeXml "\"" = "&quot;" := by
  have hid : escapeXml x = x := by
    unfold escapeXml
    rw [escapeXml_id_of_no_reserved h]
  refine ⟨hid, ?_, fun c hc => escapeXmlChar_of_not_reserved hc,
    by decide, by decide, by decide, by decide, by decide⟩
  rw [hid]
  unfold unescapeXml
  rw [unescapeChars_no_amp (fun hamp => h '&' hamp (by decide))]

/-- C8 witness: a reserved-free input passes through escape unchanged and
decodes back to itself. -/
theorem escape_exactly_five_and_roundtrip_witness :
    escapeXml "hello world" = "hello world"
    ∧ unescapeXml (escapeXml "hello world") = "hello world" := by
  have h := escape_exactly_five_and_roundtrip "hello world" (by decide)
  exact ⟨h.1, h.2.1⟩


/-! ## Claim C4 -/

/-- C4 counterexample: the claim says the counter's 60-second window is
measured from the client's first request, resetting exactly 60 seconds
after first use regardless of later requests.  Two admitted requests at
t=0ms and t=50000ms: at t=60001ms — strictly after first-use + 60s — the
counter is still alive with value 2 (the second `set` refreshed the
entry's TTL), and it only lapses strictly after t=110000ms, 60 seconds
after the LAST admitted write. -/
theorem rate_window_first_use_cex :
    (processRequests emptyNC "X" [0, 50000]).1 = [true, true]
    ∧ ncGet (processRequests emptyNC "X" [0, 50000]).2 "X" 60001 = some 2
    ∧ ncGet (processRequests emptyNC "X" [0, 50000]).2 "X" 110000 = some 2
    ∧ ncGet (processRequests emptyNC "X" [0, 50000]).2 "X" 110001 = none := by
  exact ⟨rfl, rfl, rfl, rfl⟩

/-- C4 as amended: the expiry window is measured from the most recent
admitted request, not from the first of the window: every admitted request
rewrites the entry with a fresh 60-second TTL, so after an admission at
time `t` the counter is alive (with the incremented count) at any time up
to `t + 60s` and gone strictly afterwards, regardless of the client's
earlier history. -/
theorem ncGet_ncSet_same (cache : NCache) (key : String) (v t now : Nat) :
    ncGet (ncSet cache key v t) key now = if now ≤ t + 60000 then some v else none := by
  unfold ncGet ncSet
  rw [if_pos rfl]

theorem rate_window_from_last_write (cache : NCache) (ip : String) (t now : Nat)
    (c1 : NCache) (h : rateLimitStep cache ip t = .admitted c1) :
    (now ≤ t + 60000 → ncGet c1 ip now = some ((ncGet cache ip t).getD 0 + 1))
    ∧ (t + 60000 < now → ncGet c1 ip now = none) := by
  unfold rateLimitStep at h
  by_cases hge : (ncGet cache ip t).getD 0 ≥ RATE_LIMIT
  · rw [if_pos hge] at h
    exact absurd h (by simp)
  · rw [if_neg hge] at h
    injection h with h1
    subst h1
    constructor
    · intro hle
      rw [ncGet_ncSet_same, if_pos hle]
    · intro hgt
      rw [ncGet_ncSet_same, if_neg (Nat.not_le.mpr hgt)]

/-- C4 witness: an admission at t=5ms leaves the counter readable at
t=60005ms and expired at t=60006ms. -/
theorem rate_window_from_last_write_witness :
    ncGet (ncSet emptyNC "X" 1 5) "X" 60005 = some 1
    ∧ ncGet (ncSet emptyNC "X" 1 5) "X" 60006 = none := by
  constructor
  · exact (rate_window_from_last_write emptyNC "X" 5 60005 (ncSet emptyNC "X" 1 5) rfl).1
      (by norm_num)
  · exact (rate_window_from_last_write emptyNC "X" 5 60006 (ncSet emptyNC "X" 1 5) rfl).2
      (by norm_num)

/-! ## Claim C10 -/

theorem handlerBody_cache (env : HandlerEnv) (cache1 : NCache)
    (parsed : Except String RequestBody) : (handlerBody env cache1 parsed).cache = cache1 := by
  unfold handlerBody
  cases parsed with
  | error e => rfl
  | ok body =>
    unfold validateAndRun
    repeat' split
    all_goals rfl

/-- C10: for every POST request that passes the rate-limit check, the
client's counter is written back incremented before the body is parsed or
validated: whatever the body outcome (parse failure, any validation
rejection, or a rendered batch), the output cache is exactly the input
cache with the client's counter bumped — so a request later rejected with
a 400 validation error, or one whose body fails to parse, still consumed
one unit of that client's quota for the current window. -/
theorem handler_increments_quota_first (env : HandlerEnv) (cache : NCache) (now : Nat)
    (event : Event) (hpost : event.httpMethod = "POST")
    (hrl : (ncGet cache (clientIPOf event) now).getD 0 < RATE_LIMIT) :
    (handler env cache now event).cache
      = ncSet cache (clientIPOf event) ((ncGet cache (clientIPOf event) now).getD 0 + 1) now
    ∧ ncGet (handler env cache now event).cache (clientIPOf event) now
      = some ((ncGet cache (clientIPOf event) now).getD 0 + 1) := by
  have hred : handler env cache now event
      = handlerBody env
          (ncSet cache (clientIPOf event) ((ncGet cache (clientIPOf event) now).getD 0 + 1) now)
          event.body := by
    unfold handler
    rw [if_neg (show ¬event.httpMethod = "OPTIONS" by rw [hpost]; decide),
        if_neg (show ¬event.httpMethod ≠ "POST" by rw [hpost]; simp),
        if_neg (Nat.not_le.mpr hrl)]
  rw [hred, handlerBody_cache]
  refine ⟨rfl, ?_⟩
  rw [ncGet_ncSet_same, if_pos (Nat.le_add_right now 60000)]

/-- C10 witness: a POST request with a 400-rejected body (empty arrays)
from a fresh client leaves the client's counter at 1. -/
theorem handler_increments_quota_first_witness :
    (handler ⟨fun _ _ _ _ => .ok "", fun _ _ _ _ => .err "", fun _ => [], 0⟩ emptyNC 0
        ⟨"POST", none, none, .ok {}⟩).cache
      = ncSet emptyNC "unknown" 1 0
    ∧ ncGet (handler ⟨fun _ _ _ _ => .ok "", fun _ _ _ _ => .err "", fun _ => [], 0⟩ emptyNC 0
        ⟨"POST", none, none, .ok {}⟩).cache "unknown" 0 = some 1 := by
  have h := handler_increments_quota_first
    ⟨fun _ _ _ _ => .ok "", fun _ _ _ _ => .err "", fun _ => [], 0⟩ emptyNC 0
    ⟨"POST", none, none, .ok {}⟩ rfl (by decide)
  exact h

/-! ## Claim C3 -/

theorem ncSet_ncSet_same (cache : NCache) (key : String) (v1 t1 v2 t2 : Nat) :
    ncSet (ncSet cache key v1 t1) key v2 t2 = ncSet cache key v2 t2 := by
  funext k
  unfold ncSet
  by_cases hk : k = key
  · rw [if_pos hk, if_pos hk]
  · rw [if_neg hk, if_neg hk, if_neg hk]

theorem processRequests_fst_rejected {cache : NCache} {ip : String} {t : Nat}
    {ts : List Nat} (h : rateLimitStep cache ip t = .rejected) :
    (processRequests cache ip (t :: ts)).1 = false :: (processRequests cache ip ts).1 := by
  simp only [processRequests]
  rw [h]

theorem processRequests_snd_rejected {cache : NCache} {ip : String} {t : Nat}
    {ts : List Nat} (h : rateLimitStep cache ip t = .rejected) :
    (processRequests cache ip (t :: ts)).2 = (processRequests cache ip ts).2 := by
  simp only [processRequests]
  rw [h]

theorem processRequests_fst_admitted {cache c1 : NCache} {ip : String} {t : Nat}
    {ts : List Nat} (h : rateLimitStep cache ip t = .admitted c1) :
    (processRequests cache ip (t :: ts)).1 = true :: (processRequests c1 ip ts).1 := by
  simp only [processRequests]
  rw [h]

theorem processRequests_snd_admitted {cache c1 : NCache} {ip : String} {t : Nat}
    {ts : List Nat} (h : rateLimitStep cache ip t = .admitted c1) :
    (processRequests cache ip (t :: ts)).2 = (processRequests c1 ip ts).2 := by
  simp only [processRequests]
  rw [h]

theorem map_decide_false {c : Nat} (n : Nat) (h : RATE_LIMIT ≤ c) :
    (List.range n).map (fun i => decide (c + i < RATE_LIMIT)) = List.replicate n false := by
  rw [List.eq_replicate_iff]
  refine ⟨by simp, ?_⟩
  intro b hb
  rw [List.mem_map] at hb
  obtain ⟨i, _, rfl⟩ := hb
  simp only [decide_eq_false_iff_not]
  omega

/-- Invariant for a burst of same-client requests: starting from a cache
holding the single entry `(c, written at w)`, with nondecreasing request
times that all fall inside `[w, w + 60s]`, request `i` is admitted exactly
while `c + i` is under the threshold, and the final cache again holds a
single entry written at `w` or at one of the request times. -/
theorem processRequests_spec (ip : String) :
    ∀ (ts : List Nat) (c w : Nat), c ≤ RATE_LIMIT →
      List.Pairwise (fun a b => a ≤ b) ts →
      (∀ t ∈ ts, w ≤ t ∧ t ≤ w + 60000) →
      (processRequests (ncSet emptyNC ip c w) ip ts).1
          = (List.range ts.length).map (fun i => decide (c + i < RATE_LIMIT))
      ∧ ∃ c2 w2, (processRequests (ncSet emptyNC ip c w) ip ts).2 = ncSet emptyNC ip c2 w2
          ∧ (w2 = w ∨ w2 ∈ ts) := by
  intro ts
  induction ts with
  | nil =>
    intro c w _ _ _
    exact ⟨rfl, c, w, rfl, Or.inl rfl⟩
  | cons t ts ih =>
    intro c w hc hpair hwin
    obtain ⟨hfirst, hpair'⟩ := List.pairwise_cons.mp hpair
    have hw1 := (hwin t (List.mem_cons_self t ts)).1
    have hw2 := (hwin t (List.mem_cons_self t ts)).2
    have hget : ncGet (ncSet emptyNC ip c w) ip t = some c := by
      rw [ncGet_ncSet_same, if_pos hw2]
    by_cases hfull : c ≥ RATE_LIMIT
    · have hstep : rateLimitStep (ncSet emptyNC ip c w) ip t = .rejected := by
        unfold rateLimitStep
        rw [hget]
        exact if_pos hfull
      obtain ⟨ihout, c2, w2, ihcache, ihw⟩ := ih c w hc hpair'
        (fun t2 ht2 => hwin t2 (List.mem_cons_of_mem t ht2))
      constructor
      · rw [processRequests_fst_rejected hstep, ihout,
          map_decide_false ts.length hfull, List.length_cons,
          map_decide_false (ts.length + 1) hfull, List.replicate_succ]
      · refine ⟨c2, w2, ?_, ?_⟩
        · rw [processRequests_snd_rejected hstep, ihcache]
        · rcases ihw with h | h
          · exact Or.inl h
          · exact Or.inr (List.mem_cons_of_mem t h)
    · have hlt : c < RATE_LIMIT := Nat.not_le.mp hfull
      have hstep : rateLimitStep (ncSet emptyNC ip c w) ip t
          = .admitted (ncSet (ncSet emptyNC ip c w) ip (c + 1) t) := by
        unfold rateLimitStep
        rw [hget]
        exact if_neg hfull
      have hwin' : ∀ t2 ∈ ts, t ≤ t2 ∧ t2 ≤ t + 60000 := by
        intro t2 ht2
        have h1 := hfirst t2 ht2
        have h2 := (hwin t2 (List.mem_cons_of_mem t ht2)).2
        exact ⟨h1, by omega⟩
      obtain ⟨ihout, c2, w2, ihcache, ihw⟩ := ih (c + 1) t hlt hpair' hwin'
      constructor
      · rw [processRequests_fst_admitted hstep, ncSet_ncSet_same, ihout,
          List.length_cons]
        simp only [List.range_succ_eq_map, List.map_cons, List.map_map, Function.comp]
        congr 1
        · symm
          simp only [decide_eq_true_iff]
          omega
        · refine List.map_congr_left ?_
          intro i _
          simp only [Function.comp_apply, Function.comp, decide_eq_decide]
          omega
      · refine ⟨c2, w2, ?_, Or.inr ?_⟩
        · rw [processRequests_snd_admitted hstep, ncSet_ncSet_same, ihcache]
        · rcases ihw with h | h
          · exact h ▸ List.mem_cons_self t ts
          · exact List.mem_cons_of_mem t h

/-- C3: from a fresh window, a nondecreasing burst of same-client requests
all within 60 seconds of the first sees its first 10 requests admitted (in
particular the 10th) and the 11th and every later request of the window
rejected; and once the window has lapsed — the next request arriving more
than 60 seconds after every request of the burst, hence after the entry's
last refresh — that client's next request is admitted again. -/
theorem rate_limit_threshold (ip : String) (t0 : Nat) (rest : List Nat)
    (hpair : List.Pairwise (fun a b => a ≤ b) (t0 :: rest))
    (hwin : ∀ t ∈ rest, t ≤ t0 + 60000) :
    (processRequests emptyNC ip (t0 :: rest)).1
        = (List.range (rest.length + 1)).map (fun i => decide (i < RATE_LIMIT))
    ∧ ∀ t2, (∀ t ∈ t0 :: rest, t + 60000 < t2) →
        ∃ c2, rateLimitStep (processRequests emptyNC ip (t0 :: rest)).2 ip t2
          = .admitted c2 := by
  obtain ⟨hfirst, hpair'⟩ := List.pairwise_cons.mp hpair
  have hstep : rateLimitStep emptyNC ip t0 = .admitted (ncSet emptyNC ip 1 t0) := rfl
  have hwin' : ∀ t ∈ rest, t0 ≤ t ∧ t ≤ t0 + 60000 := fun t ht =>
    ⟨hfirst t ht, hwin t ht⟩
  obtain ⟨ihout, c2, w2, ihcache, ihw⟩ :=
    processRequests_spec ip rest 1 t0 (by decide) hpair' hwin'
  constructor
  · rw [processRequests_fst_admitted hstep, ihout]
    simp only [List.range_succ_eq_map, List.map_cons, List.map_map, Function.comp]
    congr 1
    refine List.map_congr_left ?_
    intro i _
    simp only [Function.comp_apply, Function.comp, decide_eq_decide]
    omega
  · intro t2 ht2
    have hw2mem : w2 ∈ t0 :: rest := by
      rcases ihw with h | h
      · exact h ▸ List.mem_cons_self t0 rest
      · exact List.mem_cons_of_mem t0 h
    have hlate : w2 + 60000 < t2 := ht2 w2 hw2mem
    have hget : ncGet (processRequests emptyNC ip (t0 :: rest)).2 ip t2 = none := by
      rw [processRequests_snd_admitted hstep, ihcache, ncGet_ncSet_same,
        if_neg (Nat.not_le.mpr hlate)]
    refine ⟨ncSet (processRequests emptyNC ip (t0 :: rest)).2 ip 1 t2, ?_⟩
    unfold rateLimitStep
    rw [hget]
    exact if_neg (by decide)

/-- C3 witness: eleven same-instant requests from client X — ten admitted,
the eleventh rejected — and a request 60.001 seconds later admitted again. -/
theorem rate_limit_threshold_witness :
    (processRequests emptyNC "X" (0 :: List.replicate 10 0)).1
        = (List.range 11).map (fun i => decide (i < RATE_LIMIT))
    ∧ ∃ c2, rateLimitStep (processRequests emptyNC "X" (0 :: List.replicate 10 0)).2 "X" 60001
        = .admitted c2 := by
  have hpair : List.Pairwise (fun a b => a ≤ b) (0 :: List.replicate 10 0) := by decide
  have hwin : ∀ t ∈ List.replicate 10 0, t ≤ 0 + 60000 := by decide
  have h := rate_limit_threshold "X" 0 (List.replicate 10 0) hpair hwin
  refine ⟨by simpa using h.1, ?_⟩
  refine h.2 60001 ?_
  intro t ht
  have ht0 : t = 0 := by
    rcases List.mem_cons.mp ht with h0 | hmem
    · exact h0
    · exact List.eq_of_mem_replicate hmem
  omega

/-! ## Claim C5 -/

theorem redirectChainB_cons {net : String → HttpResp}
    {resolve : String → String → Option String} {u v : String} {rest : List String}
    (h : redirectChainB net resolve (u :: v :: rest) = true) :
    (300 ≤ (net u).status ∧ (net u).status < 400 ∧ strTruthy (net u).location = true
      ∧ resolve ((net u).location.getD "") u = some v)
    ∧ redirectChainB net resolve (v :: rest) = true := by
  simp only [redirectChainB, Bool.and_eq_true, decide_eq_true_eq, beq_iff_eq] at h
  exact ⟨⟨h.1.1.1.1, h.1.1.1.2, h.1.1.2, h.1.2⟩, h.2⟩

theorem downloadImage_redirect_step {net : String → HttpResp}
    {resolve : String → String → Option String} {u v : String} {maxR rc : Nat}
    (h1 : 300 ≤ (net u).status) (h2 : (net u).status < 400)
    (h3 : strTruthy (net u).location = true)
    (h4 : resolve ((net u).location.getD "") u = some v)
    (hrc : rc ≤ maxR) :
    downloadImage net resolve u maxR rc = downloadImage net resolve v maxR (rc + 1) := by
  rw [downloadImage.eq_def, dif_neg (Nat.not_lt.mpr hrc)]
  simp only []
  rw [if_pos ⟨h1, h2, h3⟩, h4]

theorem downloadImage_terminal {net : String → HttpResp}
    {resolve : String → String → Option String} {u : String} {maxR rc : Nat}
    (hrc : rc ≤ maxR) (hstatus : (net u).status = 200) :
    downloadImage net resolve u maxR rc
      = if strTruthy (net u).contentType = true
            ∧ strStartsWith ((net u).contentType.getD "") "image/" = false then
          .error (.invalidContentType ((net u).contentType.getD ""))
        else readBody (net u) := by
  rw [downloadImage.eq_def, dif_neg (Nat.not_lt.mpr hrc)]
  simp only []
  rw [if_neg (fun hand => by
    have h1 := hand.1
    rw [hstatus] at h1
    omega)]
  rw [if_neg (by rw [hstatus]; simp)]

theorem downloadImage_follow (net : String → HttpResp)
    (resolve : String → String → Option String) (maxR : Nat) :
    ∀ (urls : List String) (u : String) (rc : Nat),
      redirectChainB net resolve (u :: urls) = true →
      rc + urls.length ≤ maxR →
      downloadImage net resolve u maxR rc
        = downloadImage net resolve (urls.getLastD u) maxR (rc + urls.length) := by
  intro urls
  induction urls with
  | nil => intro u rc _ _; rfl
  | cons v rest ih =>
    intro u rc hchain hle
    rw [List.length_cons] at hle
    obtain ⟨⟨h1, h2, h3, h4⟩, hchain'⟩ := redirectChainB_cons hchain
    rw [downloadImage_redirect_step h1 h2 h3 h4 (by omega),
      ih v (rc + 1) hchain' (by omega), List.getLastD_cons, List.length_cons]
    have harith : rc + 1 + rest.length = rc + (rest.length + 1) := by omega
    rw [harith]

theorem downloadImage_too_many (net : String → HttpResp)
    (resolve : String → String → Option String) (maxR : Nat) :
    ∀ (urls : List String) (u : String) (rc : Nat),
      redirectChainB net resolve (u :: urls) = true →
      maxR < rc + urls.length →
      downloadImage net resolve u maxR rc = .error (.tooManyRedirects maxR) := by
  intro urls
  induction urls with
  | nil =>
    intro u rc _ hlt
    simp only [List.length_nil, Nat.add_zero] at hlt
    rw [downloadImage.eq_def, dif_pos hlt]
  | cons v rest ih =>
    intro u rc hchain hlt
    rw [List.length_cons] at hlt
    by_cases hrc : rc > maxR
    · rw [downloadImage.eq_def, dif_pos hrc]
    · obtain ⟨⟨h1, h2, h3, h4⟩, hchain'⟩ := redirectChainB_cons hchain
      rw [downloadImage_redirect_step h1 h2 h3 h4 (by omega)]
      exact ih v (rc + 1) hchain' (by omega)

/-- C5: for the image fetcher called with its default bound of 10 redirects,
along any redirect chain `u :: urls` (each hop a 3xx response whose Location
resolves to the next URL): (a) a chain of at most 10 hops ending in a 200
response whose Content-Type, when present and non-empty, is `image/*`, and
whose body has at least one chunk, succeeds with the concatenated image
bytes; (b) a chain of at most 10 hops ending in a 200 response whose
Content-Type is present, non-empty and not `image/*` fails with
InvalidContentType; (c) any chain of more than 10 hops fails with
TooManyRedirects. -/
theorem download_redirect_behavior (net : String → HttpResp)
    (resolve : String → String → Option String) (urls : List String) (u : String)
    (hchain : redirectChainB net resolve (u :: urls) = true) :
    (urls.length ≤ 10 →
      (net (urls.getLastD u)).status = 200 →
      (strTruthy (net (urls.getLastD u)).contentType = true →
        strStartsWith ((net (urls.getLastD u)).contentType.getD "") "image/" = true) →
      (net (urls.getLastD u)).chunks ≠ [] →
      downloadImage net resolve u 10 0 = .ok (net (urls.getLastD u)).chunks.flatten)
    ∧ (urls.length ≤ 10 →
      (net (urls.getLastD u)).status = 200 →
      ∀ ct, (net (urls.getLastD u)).contentType = some ct → ct ≠ "" →
        strStartsWith ct "image/" = false →
        downloadImage net resolve u 10 0 = .error (.invalidContentType ct))
    ∧ (10 < urls.length →
      downloadImage net resolve u 10 0 = .error (.tooManyRedirects 10)) := by
  refine ⟨?_, ?_, ?_⟩
  · intro hlen hstatus himg hchunks
    rw [downloadImage_follow net resolve 10 urls u 0 hchain (by omega),
      downloadImage_terminal (by omega) hstatus]
    rw [if_neg (fun hand => by rw [himg hand.1] at hand; exact absurd hand.2 (by simp))]
    unfold readBody
    have hie : (net (urls.getLastD u)).chunks.isEmpty = false := by
      cases hch : (net (urls.getLastD u)).chunks with
      | nil => exact absurd hch hchunks
      | cons a l => rfl
    rw [hie]
    simp
  · intro hlen hstatus ct hct hctne hctbad
    rw [downloadImage_follow net resolve 10 urls u 0 hchain (by omega),
      downloadImage_terminal (by omega) hstatus]
    rw [if_pos ⟨by rw [hct]; simp [strTruthy, hctne], by rw [hct]; exact hctbad⟩, hct]
    rfl
  · intro hlen
    exact downloadImage_too_many net resolve 10 urls u 0 hchain (by omega)

/-- C5 witness: a one-hop chain `a → b` ending in a 200 `image/png` response
with one data chunk downloads successfully to the image bytes. -/
theorem download_redirect_behavior_witness :
    downloadImage
      (fun url => if url = "a" then ⟨301, some "b", none, []⟩
        else ⟨200, none, some "image/png", [[7, 8]]⟩)
      (fun loc _ => some loc) "a" 10 0 = .ok [7, 8] := by
  have h := (download_redirect_behavior
      (fun url => if url = "a" then ⟨301, some "b", none, []⟩
        else ⟨200, none, some "image/png", [[7, 8]]⟩)
      (fun loc _ => some loc) ["b"] "a" (by decide)).1
    (by decide) (by decide) (fun _ => by decide) (by decide)
  exact h

/-! ## Claim C1 -/

theorem mapWithIndex_length {α β : Type} (f : Nat → α → β) :
    ∀ (i : Nat) (l : List α), (mapWithIndex f i l).length = l.length := by
  intro i l
  induction l generalizing i with
  | nil => rfl
  | cons a as ih => simp [mapWithIndex, ih]

theorem mapWithIndex_getD {α β : Type} (f : Nat → α → β) (da : α) (db : β) :
    ∀ (i k : Nat) (l : List α), k < l.length →
      (mapWithIndex f i l).getD k db = f (i + k) (l.getD k da) := by
  intro i k l
  induction l generalizing i k with
  | nil => intro h; exact absurd h (by simp)
  | cons a as ih =>
    intro hk
    cases k with
    | zero => simp [mapWithIndex]
    | succ k2 =>
      simp only [mapWithIndex, List.getD_cons_succ]
      rw [ih (i + 1) k2 (by simpa using hk)]
      congr 1
      omega

theorem generateSlide_filename (attempt : Attempt) (w h : Int) (bg : Url)
    (s : SlideSpec) (i : Nat) :
    (generateSlide attempt w h bg s i).filename = slideFilename i := by
  unfold generateSlide
  cases attempt bg s w h <;> rfl

theorem generateSlide_error {attempt : Attempt} {w h : Int} {bg : Url} {s : SlideSpec}
    {i : Nat} {e : String} (he : attempt bg s w h = .error e) :
    generateSlide attempt w h bg s i = .failure e (slideFilename i) := by
  unfold generateSlide
  rw [he]

theorem generateSlide_congr {attempt attempt2 : Attempt} {w h : Int} {bg : Url}
    {s : SlideSpec} {i : Nat}
    (hag : attempt bg s w h = attempt2 bg s w h) :
    generateSlide attempt w h bg s i = generateSlide attempt2 w h bg s i := by
  unfold generateSlide
  rw [hag]

theorem runSlides_getD (attempt : Attempt) (width height : Int)
    (backgrounds : List Url) (slides : List SlideSpec) (i : Nat)
    (hi : i < backgrounds.length) :
    (runSlides attempt width height backgrounds slides).getD i default
      = generateSlide attempt width height (backgrounds.getD i "")
          (slides.getD i default) i := by
  unfold runSlides
  rw [mapWithIndex_getD _ "" default 0 i backgrounds hi, Nat.zero_add]

/-- C1: for equal-length non-empty `backgrounds`/`slides`, the batch
dispatch produces exactly one SlideResult per index in input order, result
`i` being `generateSlide` applied to background `i` paired with slide `i`;
every result — success or failure — carries the deterministic filename
`carousel-slide-(i+1).png`; a slide whose pipeline throws becomes a local
Failure result with that filename; and result `i` depends only on the
pipeline outcome for pair `i`, so another slide's failure neither aborts
nor alters it. -/
theorem batch_one_result_per_index (attempt attempt2 : Attempt) (width height : Int)
    (backgrounds : List Url) (slides : List SlideSpec)
    (hlen : backgrounds.length = slides.length) (hne : backgrounds ≠ []) :
    (runSlides attempt width height backgrounds slides).length = backgrounds.length
    ∧ (∀ i, i < backgrounds.length →
        (runSlides attempt width height backgrounds slides).getD i default
          = generateSlide attempt width height (backgrounds.getD i "")
              (slides.getD i default) i)
    ∧ (∀ i, i < backgrounds.length →
        ((runSlides attempt width height backgrounds slides).getD i default).filename
          = slideFilename i)
    ∧ (∀ i, i < backgrounds.length → ∀ e,
        attempt (backgrounds.getD i "") (slides.getD i default) width height = .error e →
        (runSlides attempt width height backgrounds slides).getD i default
          = .failure e (slideFilename i))
    ∧ (∀ i, i < backgrounds.length →
        attempt (backgrounds.getD i "") (slides.getD i default) width height
          = attempt2 (backgrounds.getD i "") (slides.getD i default) width height →
        (runSlides attempt width height backgrounds slides).getD i default
          = (runSlides attempt2 width height backgrounds slides).getD i default) := by
  refine ⟨?_, fun i hi => runSlides_getD attempt width height backgrounds slides i hi,
    ?_, ?_, ?_⟩
  · unfold runSlides
    exact mapWithIndex_length _ 0 backgrounds
  · intro i hi
    rw [runSlides_getD attempt width height backgrounds slides i hi,
      generateSlide_filename]
  · intro i hi e he
    rw [runSlides_getD attempt width height backgrounds slides i hi]
    exact generateSlide_error he
  · intro i hi hag
    rw [runSlides_getD attempt width height backgrounds slides i hi,
      runSlides_getD attempt2 width height backgrounds slides i hi]
    exact generateSlide_congr hag

/-- C1 witness: a two-slide batch where slide 0 renders and slide 1's
pipeline throws: slide 1 becomes a Failure carrying `carousel-slide-2.png`
while slide 0 is the untouched success for background 0 / slide 0. -/
theorem batch_one_result_per_index_witness :
    (runSlides (fun bg _ _ _ => if bg = "good" then .ok "QUJD" else .error "download failed")
        1080 1080 ["good", "bad"] [⟨some "t", none⟩, ⟨none, none⟩]).getD 1 default
      = .failure "download failed" (slideFilename 1)
    ∧ (runSlides (fun bg _ _ _ => if bg = "good" then .ok "QUJD" else .error "download failed")
        1080 1080 ["good", "bad"] [⟨some "t", none⟩, ⟨none, none⟩]).length = 2 := by
  have h := batch_one_result_per_index
    (fun bg _ _ _ => if bg = "good" then .ok "QUJD" else .error "download failed")
    (fun bg _ _ _ => if bg = "good" then .ok "QUJD" else .error "download failed")
    1080 1080 ["good", "bad"] [⟨some "t", none⟩, ⟨none, none⟩] rfl (by decide)
  refine ⟨h.2.2.2.1 1 (by decide) "download failed" rfl, ?_⟩
  exact h.1.trans rfl

/-! ## Claim C2 -/

theorem handlerBody_ok (env : HandlerEnv) (cache1 : NCache) (body : RequestBody) :
    handlerBody env cache1 (.ok body) = validateAndRun env cache1 body := rfl

theorem handler_reduces (env : HandlerEnv) (cache : NCache) (now : Nat) (event : Event)
    (body : RequestBody) (hpost : event.httpMethod = "POST")
    (hbody : event.body = .ok body)
    (hrl : (ncGet cache (clientIPOf event) now).getD 0 < RATE_LIMIT) :
    handler env cache now event
      = validateAndRun env
          (ncSet cache (clientIPOf event)
            ((ncGet cache (clientIPOf event) now).getD 0 + 1) now) body := by
  unfold handler
  rw [if_neg (show ¬event.httpMethod = "OPTIONS" by rw [hpost]; decide),
      if_neg (show ¬event.httpMethod ≠ "POST" by rw [hpost]; simp),
      if_neg (Nat.not_le.mpr hrl), hbody, handlerBody_ok]

/-- C2: for every POST request passing the rate-limit check whose body
parses, if the backgrounds array is empty/missing, the slides array is
empty/missing, the two arrays differ in length, or width/height falls
outside [200, 4000], the handler returns a 400 response with a structured
error message and schedules no slide rendering work; and when both arrays
are non-empty but differ in length, the 400 error names the length
mismatch. -/
theorem handler_validation_rejects (env : HandlerEnv) (cache : NCache) (now : Nat)
    (event : Event) (body : RequestBody) (hpost : event.httpMethod = "POST")
    (hbody : event.body = .ok body)
    (hrl : (ncGet cache (clientIPOf event) now).getD 0 < RATE_LIMIT) :
    ((body.backgrounds.getD [] = [] ∨ body.slides.getD [] = []
        ∨ (body.backgrounds.getD []).length ≠ (body.slides.getD []).length
        ∨ body.width.getD 1080 < 200 ∨ body.width.getD 1080 > 4000
        ∨ body.height.getD 1080 < 200 ∨ body.height.getD 1080 > 4000) →
      (handler env cache now event).response.statusCode = 400
      ∧ (∃ msg, (handler env cache now event).response.body = .errorMsg msg)
      ∧ (handler env cache now event).rendered = [])
    ∧ (body.backgrounds.getD [] ≠ [] → body.slides.getD [] ≠ [] →
      (body.backgrounds.getD []).length ≠ (body.slides.getD []).length →
      (handler env cache now event).response
        = ⟨400, .errorMsg "backgrounds and slides arrays must have the same length"⟩) := by
  rw [handler_reduces env cache now event body hpost hbody hrl]
  constructor
  · intro hdis
    unfold validateAndRun
    split
    · exact ⟨rfl, ⟨_, rfl⟩, rfl⟩
    · split
      · exact ⟨rfl, ⟨_, rfl⟩, rfl⟩
      · split
        · exact ⟨rfl, ⟨_, rfl⟩, rfl⟩
        · split
          · exact ⟨rfl, ⟨_, rfl⟩, rfl⟩
          · next h1 h2 h3 h4 =>
            exfalso
            rcases hdis with hb | hs | hm | hw | hw | hw | hw
            · exact h1 (by rw [hb]; rfl)
            · exact h2 (by rw [hs]; rfl)
            · exact h3 hm
            · exact h4 (Or.inl hw)
            · exact h4 (Or.inr (Or.inl hw))
            · exact h4 (Or.inr (Or.inr (Or.inl hw)))
            · exact h4 (Or.inr (Or.inr (Or.inr hw)))
  · intro hbne hsne hmm
    unfold validateAndRun
    rw [if_neg (fun h0 => hbne (by
        cases hb : body.backgrounds.getD [] with
        | nil => rfl
        | cons a l => rw [hb] at h0; exact absurd h0 (by simp))),
      if_neg (fun h0 => hsne (by
        cases hs : body.slides.getD [] with
        | nil => rfl
        | cons a l => rw [hs] at h0; exact absurd h0 (by simp))),
      if_pos hmm]

/-- C2 witness: a POST request with two backgrounds and one slide is
rejected 400 naming the length mismatch. -/
theorem handler_validation_rejects_witness :
    (handler ⟨fun _ _ _ _ => .ok "", fun _ _ _ _ => .err "", fun _ => [], 0⟩ emptyNC 0
        ⟨"POST", none, none,
          .ok { backgrounds := some ["u", "v"], slides := some [⟨none, none⟩] }⟩).response
      = ⟨400, .errorMsg "backgrounds and slides arrays must have the same length"⟩ := by
  exact (handler_validation_rejects
      ⟨fun _ _ _ _ => .ok "", fun _ _ _ _ => .err "", fun _ => [], 0⟩ emptyNC 0
      ⟨"POST", none, none,
        .ok { backgrounds := some ["u", "v"], slides := some [⟨none, none⟩] }⟩
      { backgrounds := some ["u", "v"], slides := some [⟨none, none⟩] }
      rfl rfl (by decide)).2 (by decide) (by decide) (by decide)

/-! ## Claim C9 -/

/-- C9: for every request that reaches response assembly (POST, under the
rate limit, body parsed, arrays non-empty and equal length, dimensions in
range), if the serialized success response exceeds 6,000,000 bytes the
handler returns a 413 whose body carries the measured size (the error),
a non-empty suggestion field and the stats — never a truncated 200 — and
if it is at or under the ceiling the handler returns 200 with the
serialized response whole. -/
theorem handler_response_size_ceiling (env : HandlerEnv) (cache : NCache) (now : Nat)
    (event : Event) (body : RequestBody) (hpost : event.httpMethod = "POST")
    (hbody : event.body = .ok body)
    (hrl : (ncGet cache (clientIPOf event) now).getD 0 < RATE_LIMIT)
    (hbg : body.backgrounds.getD [] ≠ [])
    (hsl : body.slides.getD [] ≠ [])
    (heq : (body.backgrounds.getD []).length = (body.slides.getD []).length)
    (hw1 : 200 ≤ body.width.getD 1080) (hw2 : body.width.getD 1080 ≤ 4000)
    (hh1 : 200 ≤ body.height.getD 1080) (hh2 : body.height.getD 1080 ≤ 4000) :
    ((env.serialize (assembleResponse env body)).length > MAX_RESPONSE_BYTES →
      (handler env cache now event).response.statusCode = 413
      ∧ ∃ sug st, (handler env cache now event).response.body
          = .oversize (env.serialize (assembleResponse env body)).length sug st
          ∧ sug ≠ "")
    ∧ ((env.serialize (assembleResponse env body)).length ≤ MAX_RESPONSE_BYTES →
      (handler env cache now event).response
        = ⟨200, .serialized (env.serialize (assembleResponse env body))⟩) := by
  have hrun : (handler env cache now event).response = processBatch env body := by
    rw [handler_reduces env cache now event body hpost hbody hrl]
    unfold validateAndRun
    rw [if_neg (fun h0 => hbg (by
        cases hb : body.backgrounds.getD [] with
        | nil => rfl
        | cons a l => rw [hb] at h0; exact absurd h0 (by simp))),
      if_neg (fun h0 => hsl (by
        cases hs : body.slides.getD [] with
        | nil => rfl
        | cons a l => rw [hs] at h0; exact absurd h0 (by simp))),
      if_neg (fun hne => hne heq),
      if_neg (fun hdis => by
        rcases hdis with hw | hw | hw | hw
        · omega
        · omega
        · omega
        · omega)]
  rw [hrun]
  unfold processBatch finalizeResponse
  constructor
  · intro hsz
    rw [if_pos hsz]
    split
    · exact ⟨rfl, suggestionWithDrive, (assembleResponse env body).stats, rfl, by decide⟩
    · exact ⟨rfl, suggestionNoDrive, (assembleResponse env body).stats, rfl, by decide⟩
  · intro hsz
    rw [if_neg (Nat.not_lt.mpr hsz)]

/-- C9 witness: with a serializer producing 6,000,001 bytes for a valid
one-slide batch, the handler returns 413. -/
theorem handler_response_size_ceiling_witness :
    (handler ⟨fun _ _ _ _ => .ok "QUJD", fun _ _ _ _ => .err "",
        fun _ => List.replicate 6000001 0, 0⟩ emptyNC 0
      ⟨"POST", none, none,
        .ok { backgrounds := some ["u"], slides := some [⟨none, none⟩] }⟩).response.statusCode
      = 413 := by
  exact ((handler_response_size_ceiling
      ⟨fun _ _ _ _ => .ok "QUJD", fun _ _ _ _ => .err "",
        fun _ => List.replicate 6000001 0, 0⟩ emptyNC 0
      ⟨"POST", none, none,
        .ok { backgrounds := some ["u"], slides := some [⟨none, none⟩] }⟩
      { backgrounds := some ["u"], slides := some [⟨none, none⟩] }
      rfl rfl (by decide) (by decide) (by decide) rfl (by decide) (by decide)
      (by decide) (by decide)).1
    (by show (List.replicate 6000001 (0 : Nat)).length > MAX_RESPONSE_BYTES
        rw [List.length_replicate]
        decide)).1

end Carousel
